import Mathlib

/-!
Shallow embedding of `prettylog` (src/prettylog/prettylog.py) and proofs
about its table rendering, log formatting and logging-configuration code.

Conventions of the embedding:
* Python strings are Lean `String`s; `len` is `String.length` (both count
  unicode characters, not bytes, for the characters used here).
* A "sink" (`stream` argument) is modelled by returning the exact string(s)
  that the code passes to it, in order; one list element = one sink call.
* Python exceptions (`ValueError`, `KeyError`, format-spec errors) are
  modelled with `Except`/`Option`: `Except.error`/`none` means the Python
  code raises, `Except.ok`/`some` gives the produced value.
* Machine-independent `int`s are `Int`.
-/

namespace Prettylog

/-- Python `' ' * n`: a run of `n` spaces. -/
def spaceRun (n : Nat) : String :=
  String.mk (List.replicate n ' ')

/-- Python `'─' * n`: a run of `n` box-drawing dashes. -/
def dashRun (n : Nat) : String :=
  String.mk (List.replicate n '─')

/-- Python format-spec padding `f"{s:{align}{width}}"` applied to a string
value `s`: left (`<`), right (`>`) or centre (`^`) aligned within `width`,
filled with spaces (centre puts the extra fill character on the right, as
CPython's formatter does); a value at least `width` long is emitted
unchanged.  Any other alignment character makes the format spec invalid,
which Python reports by raising (`none` here). -/
def formatPad (s : String) (align : Char) (width : Nat) : Option String :=
  let pad := width - s.length
  if align = '<' then some (s ++ spaceRun pad)
  else if align = '>' then some (spaceRun pad ++ s)
  else if align = '^' then some (spaceRun (pad / 2) ++ s ++ spaceRun (pad - pad / 2))
  else none

/-- The state of `ContinuousTable` after `__init__` stored its attributes
(the sink is kept outside the structure, see the module docstring). -/
structure ContinuousTable where
  col_widths : List Int
  col_align : List Char
deriving DecidableEq

/-- The three alignment symbols recognised by `ContinuousTable.__init__`. -/
def alignSymbols : List Char := ['<', '>', '^']

/-- `ContinuousTable.__init__`: validates the widths (a list of positive
integers), the alignments (only `<`, `>`, `^`) and that both lists have the
same length, raising `ValueError` otherwise; on success the attributes are
stored.  The `isinstance` checks of the Python code are enforced by the Lean
types. -/
def ContinuousTable.init (col_widths : List Int) (col_align : List Char) :
    Except String ContinuousTable :=
  if ¬ (col_widths.all (fun w => 0 < w)) then
    Except.error "col_widths must be a list of positive integers"
  else if ¬ (col_align.all (fun c => c ∈ alignSymbols)) then
    Except.error "col_align must be a list of < (left), > (right), or ^ (centre)"
  else if col_widths.length ≠ col_align.length then
    Except.error "col_widths and col_align must have the same length"
  else
    Except.ok ⟨col_widths, col_align⟩

/-- The body shared by `start`/`end`/`hr`: for each width in
`col_widths[:-1]` a dash run of that width followed by `mid`, then a dash
run for the last width followed by `fin` (Python `'─' * w` on a negative
`int` yields the empty string, hence `Int.toNat`). -/
def barBody (mid fin : String) : List Int → String
  | [] => ""
  | [w] => dashRun w.toNat ++ fin
  | w :: w2 :: ws => dashRun w.toNat ++ mid ++ barBody mid fin (w2 :: ws)

/-- `ContinuousTable.start`: the single line passed to the sink.  On an
empty width list the Python code raises `IndexError` (`col_widths[-1]`),
modelled by `none`. -/
def ContinuousTable.start (t : ContinuousTable) : Option String :=
  match t.col_widths with
  | [] => none
  | _ :: _ => some ("┌─" ++ barBody "─┬─" "─┐" t.col_widths)

/-- `ContinuousTable.end`: the single line passed to the sink (`end` is a
Lean keyword, hence the trailing underscore). -/
def ContinuousTable.end_ (t : ContinuousTable) : Option String :=
  match t.col_widths with
  | [] => none
  | _ :: _ => some ("└─" ++ barBody "─┴─" "─┘" t.col_widths)

/-- `ContinuousTable.hr`: the single line passed to the sink. -/
def ContinuousTable.hr (t : ContinuousTable) : Option String :=
  match t.col_widths with
  | [] => none
  | _ :: _ => some ("├─" ++ barBody "─┼─" "─┤" t.col_widths)

/-- The loop of `ContinuousTable.row`: cell `i` is
`f"{str(item):{col_align[i]}{col_widths[i]}} │ "`.  Indexing past the end of
either list raises `IndexError` in Python, and a negative width makes the
format spec invalid; both are modelled by `none`. -/
def ContinuousTable.rowCells (widths : List Int) (ca : List Char) :
    Nat → List String → Option String
  | _, [] => some ""
  | i, item :: rest =>
    match ca[i]?, widths[i]? with
    | some a, some w =>
      if w < 0 then none
      else
        match formatPad item a w.toNat,
              ContinuousTable.rowCells widths ca (i + 1) rest with
        | some cell, some restS => some (cell ++ " │ " ++ restS)
        | _, _ => none
    | _, _ => none

/-- `ContinuousTable.row`: the single line passed to the sink, built as
`'│ '` followed by one padded cell and `' │ '` per item; `colAlign` is the
optional per-row alignment override (`None` in Python selects the table's
default). -/
def ContinuousTable.row (t : ContinuousTable) (line : List String)
    (colAlign : Option (List Char)) : Option String :=
  let ca := colAlign.getD t.col_align
  (ContinuousTable.rowCells t.col_widths ca 0 line).map (fun s => "│ " ++ s)

theorem isOk_error {ε α : Type} (e : ε) :
    (Except.error e : Except ε α).isOk = false := rfl

theorem isOk_ok {ε α : Type} (a : α) :
    (Except.ok a : Except ε α).isOk = true := rfl

/-- C1 counterexample: constructing a `ContinuousTable` with an EMPTY width
list (and empty alignment list) succeeds — every validation passes
vacuously — although the claim requires construction to fail whenever the
width list is not a NONEMPTY sequence of positive integers. -/
theorem init_empty_succeeds :
    ContinuousTable.init ([] : List Int) ([] : List Char) =
      Except.ok ⟨[], []⟩ := by
  rfl

/-- C1 (amended): construction succeeds exactly when every width is a
positive integer, every alignment symbol is one of the three recognised
ones, and the two lists have the same length — nonemptiness is NOT
required.  Failure is an `Except.error` carrying the descriptive message,
so no partially constructed table is observable. -/
theorem init_ok_iff (col_widths : List Int) (col_align : List Char) :
    (ContinuousTable.init col_widths col_align).isOk = true ↔
      ((∀ w ∈ col_widths, 0 < w) ∧ (∀ c ∈ col_align, c ∈ alignSymbols) ∧
        col_widths.length = col_align.length) := by
  unfold ContinuousTable.init
  simp only [List.all_eq_true, decide_eq_true_eq, ne_eq]
  split
  · rename_i h
    simp only [isOk_error, Bool.false_eq_true, false_iff]
    exact fun hR => h hR.1
  · rename_i h
    rw [not_not] at h
    split
    · rename_i h2
      simp only [isOk_error, Bool.false_eq_true, false_iff]
      exact fun hR => h2 hR.2.1
    · rename_i h2
      rw [not_not] at h2
      split
      · rename_i h3
        simp only [isOk_error, Bool.false_eq_true, false_iff]
        exact fun hR => h3 hR.2.2
      · rename_i h3
        rw [not_not] at h3
        simp only [isOk_ok, true_iff]
        exact ⟨h, h2, h3⟩

/-- C2: on a table built with widths `[10, 10]` and alignments `['>', '>']`,
`row(['Row 1', '42'])` passes to the sink exactly the single string
`"│      Row 1 │         42 │ "` — each value right-aligned and
space-padded to width 10, bordered, with a trailing space. -/
theorem row_example_right_aligned :
    Except.map (fun t => ContinuousTable.row t ["Row 1", "42"] none)
      (ContinuousTable.init [10, 10] ['>', '>']) =
    Except.ok (some "│      Row 1 │         42 │ ") := by
  rfl

theorem dashRun_length (n : Nat) : (dashRun n).length = n := by
  simp [dashRun, String.length]

theorem spaceRun_zero : spaceRun 0 = "" := rfl

theorem data_head?_append (a b : String) (c : Char)
    (h : a.data.head? = some c) : (a ++ b).data.head? = some c := by
  rw [String.data_append, List.head?_append, h]
  rfl

theorem data_getLast?_append (a b : String) (c : Char)
    (h : b.data.getLast? = some c) : (a ++ b).data.getLast? = some c := by
  rw [String.data_append, List.getLast?_append, h]
  rfl

theorem barBody_length (mid fin : String) (hm : mid.length = 3) :
    ∀ ws : List Int, ws ≠ [] →
      (barBody mid fin ws).length =
        (ws.map Int.toNat).sum + 3 * (ws.length - 1) + fin.length := by
  intro ws
  induction ws with
  | nil => intro h; exact absurd rfl h
  | cons w ws ih =>
    intro _
    cases ws with
    | nil => simp [barBody, String.length_append, dashRun_length]
    | cons w2 ws2 =>
      have hrec := ih (by simp)
      simp only [barBody, String.length_append, dashRun_length, hm, hrec,
        List.map_cons, List.sum_cons, List.length_cons]
      omega

theorem barBody_ends (mid fin : String) :
    ∀ ws : List Int, ws ≠ [] → ∃ p : String, barBody mid fin ws = p ++ fin := by
  intro ws
  induction ws with
  | nil => intro h; exact absurd rfl h
  | cons w ws ih =>
    intro _
    cases ws with
    | nil => exact ⟨dashRun w.toNat, rfl⟩
    | cons w2 ws2 =>
      obtain ⟨p, hp⟩ := ih (by simp)
      exact ⟨dashRun w.toNat ++ mid ++ p, by
        simp [barBody, hp, String.append_assoc]⟩

/-- The property claimed of the three border lines of a valid table: each of
`start`, `end`, `hr` yields exactly one line, of length the sum of the
column widths plus two padding dashes per column plus the `n + 1` joining
glyphs, starting and ending with the corner or junction glyph of that
line's role. -/
def BarLinesSpec (t : ContinuousTable) : Prop :=
  ∃ s e hrL : String,
    t.start = some s ∧ t.end_ = some e ∧ t.hr = some hrL ∧
    s.length = (t.col_widths.map Int.toNat).sum + 3 * t.col_widths.length + 1 ∧
    e.length = (t.col_widths.map Int.toNat).sum + 3 * t.col_widths.length + 1 ∧
    hrL.length = (t.col_widths.map Int.toNat).sum + 3 * t.col_widths.length + 1 ∧
    s.data.head? = some '┌' ∧ s.data.getLast? = some '┐' ∧
    e.data.head? = some '└' ∧ e.data.getLast? = some '┘' ∧
    hrL.data.head? = some '├' ∧ hrL.data.getLast? = some '┤'

theorem init_ok_elim {ws : List Int} {as : List Char} {t : ContinuousTable}
    (h : ContinuousTable.init ws as = Except.ok t) : t = ⟨ws, as⟩ := by
  unfold ContinuousTable.init at h
  split at h
  · cases h
  · split at h
    · cases h
    · split at h
      · cases h
      · cases h; rfl

/-- C6: for every `ContinuousTable` constructed from a valid (nonempty)
width/alignment pair list, `start()`, `hr()` and `end()` each pass to the
sink one line of length `sum of widths + 2·n padding dashes + (n+1)
glyphs = sum + 3·n + 1`, with the role-appropriate corner glyphs at both
ends (widths are positive here, so `Int.toNat` is the identity on them). -/
theorem bar_lines_shape (ws : List Int) (as : List Char) (t : ContinuousTable)
    (hinit : ContinuousTable.init ws as = Except.ok t) (hne : ws ≠ []) :
    BarLinesSpec t := by
  obtain rfl : t = ⟨ws, as⟩ := init_ok_elim hinit
  obtain ⟨w, ws', rfl⟩ : ∃ w ws', ws = w :: ws' := by
    cases ws with
    | nil => exact absurd rfl hne
    | cons w ws' => exact ⟨w, ws', rfl⟩
  have hlen : ∀ mid fin : String, mid.length = 3 → fin.length = 2 →
      ∀ pre : String, pre.length = 2 →
      (pre ++ barBody mid fin (w :: ws')).length =
        ((w :: ws').map Int.toNat).sum + 3 * (w :: ws').length + 1 := by
    intro mid fin hm hf pre hp
    rw [String.length_append, hp, barBody_length mid fin hm _ (by simp), hf]
    simp only [List.length_cons]
    omega
  have hlast : ∀ mid fin : String, ∀ c : Char, fin.data.getLast? = some c →
      ∀ pre : String,
      (pre ++ barBody mid fin (w :: ws')).data.getLast? = some c := by
    intro mid fin c hf pre
    obtain ⟨p, hp⟩ := barBody_ends mid fin (w :: ws') (by simp)
    rw [hp]
    exact data_getLast?_append _ _ _ (data_getLast?_append _ _ _ hf)
  refine ⟨_, _, _, rfl, rfl, rfl, ?_, ?_, ?_, ?_, ?_, ?_, ?_, ?_, ?_⟩
  · exact hlen "─┬─" "─┐" rfl rfl "┌─" rfl
  · exact hlen "─┴─" "─┘" rfl rfl "└─" rfl
  · exact hlen "─┼─" "─┤" rfl rfl "├─" rfl
  · exact data_head?_append "┌─" _ '┌' rfl
  · exact hlast "─┬─" "─┐" '┐' rfl "┌─"
  · exact data_head?_append "└─" _ '└' rfl
  · exact hlast "─┴─" "─┘" '┘' rfl "└─"
  · exact data_head?_append "├─" _ '├' rfl
  · exact hlast "─┼─" "─┤" '┤' rfl "├─"

/-- Witness for C6 at the concrete table with widths `[10, 10]`. -/
theorem bar_lines_shape_witness : BarLinesSpec ⟨[10, 10], ['>', '>']⟩ :=
  bar_lines_shape [10, 10] ['>', '>'] ⟨[10, 10], ['>', '>']⟩ rfl (by simp)

theorem formatPad_embeds (s : String) (a : Char) (w : Nat) (cell : String)
    (h : formatPad s a w = some cell) : s.data <:+: cell.data := by
  unfold formatPad at h
  split at h
  · cases h
    rw [String.data_append]
    exact List.IsPrefix.isInfix (List.prefix_append _ _)
  · split at h
    · cases h
      rw [String.data_append]
      exact List.IsSuffix.isInfix (List.suffix_append _ _)
    · split at h
      · cases h
        exact ⟨(spaceRun ((w - s.length) / 2)).data,
          (spaceRun (w - s.length - (w - s.length) / 2)).data,
          by simp [String.data_append]⟩
      · cases h

theorem formatPad_wide (s : String) (a : Char) (w : Nat) (cell : String)
    (h : formatPad s a w = some cell) (hw : w ≤ s.length) : cell = s := by
  unfold formatPad at h
  rw [Nat.sub_eq_zero_of_le hw] at h
  split at h
  · cases h
    exact String.append_empty s
  · split at h
    · cases h
      exact String.empty_append s
    · split at h
      · cases h
        rw [Nat.zero_div, Nat.zero_sub, spaceRun_zero,
          String.empty_append, String.append_empty]
      · cases h

theorem rowCells_embeds (widths : List Int) (ca : List Char) :
    ∀ (items : List String) (i : Nat) (s : String),
      ContinuousTable.rowCells widths ca i items = some s →
      ∀ item ∈ items, item.data <:+: s.data := by
  intro items
  induction items with
  | nil => simp
  | cons item rest ih =>
    intro i s h it hmem
    unfold ContinuousTable.rowCells at h
    split at h
    · rename_i a wd _
      split at h
      · cases h
      · split at h
        · rename_i cell restS hcell hrest
          cases h
          rw [String.data_append, String.data_append]
          cases hmem with
          | head =>
            refine (formatPad_embeds _ _ _ _ hcell).trans ?_
            exact List.IsPrefix.isInfix
              ((List.prefix_append _ _).trans (List.prefix_append _ _))
          | tail _ hmem =>
            refine (ih (i + 1) restS hrest it hmem).trans ?_
            exact List.IsSuffix.isInfix (List.suffix_append _ _)
        · cases h
    · cases h

/-- The property claimed of `row`: every input value's text appears intact
(as a contiguous substring) in the emitted line, and the padding routine
never truncates — it embeds the value and, whenever the value is at least
as long as the column width, returns it completely unchanged. -/
def RowPreservesSpec (line : List String) (r : String) : Prop :=
  (∀ item ∈ line, item.data <:+: r.data) ∧
  (∀ (s : String) (a : Char) (w : Nat) (cell : String),
    formatPad s a w = some cell →
      s.data <:+: cell.data ∧ (w ≤ s.length → cell = s))

/-- C7: whenever `row` succeeds, the emitted line reproduces each input
value's text without truncation, and the underlying format padding widens
(emitting the value unchanged) whenever the rendered text is at least as
long as the column's configured width. -/
theorem row_preserves_values (t : ContinuousTable) (line : List String)
    (colAlign : Option (List Char)) (r : String)
    (h : ContinuousTable.row t line colAlign = some r) :
    RowPreservesSpec line r := by
  unfold ContinuousTable.row at h
  rw [Option.map_eq_some'] at h
  obtain ⟨s0, hs0, hr⟩ := h
  subst hr
  constructor
  · intro item hmem
    refine (rowCells_embeds _ _ line 0 s0 hs0 item hmem).trans ?_
    rw [String.data_append]
    exact List.IsSuffix.isInfix (List.suffix_append _ _)
  · intro s a w cell hcell
    exact ⟨formatPad_embeds s a w cell hcell,
      fun hw => formatPad_wide s a w cell hcell hw⟩

/-- Witness for C7: a 7-character value in a 3-wide column is emitted in
full. -/
theorem row_preserves_values_witness :
    RowPreservesSpec ["toolong"] "│ toolong │ " :=
  row_preserves_values ⟨[3], ['<']⟩ ["toolong"] none "│ toolong │ " rfl

/-- Python `str.replace` scan for a nonempty pattern: left to right, replace
each non-overlapping occurrence, never rescanning the replacement.  The
fuel (the scan length, `s.length` at the top call) makes the recursion
structural; an empty pattern is left alone (all patterns used by the code
are nonempty). -/
def replaceFuel (pat sub : List Char) : Nat → List Char → List Char
  | _, [] => []
  | 0, cs => cs
  | fuel + 1, c :: rest =>
    if pat ≠ [] ∧ pat <+: (c :: rest) then
      sub ++ replaceFuel pat sub fuel (rest.drop (pat.length - 1))
    else
      c :: replaceFuel pat sub fuel rest

/-- Python `s.replace(pat, sub)` for the nonempty patterns used here. -/
def pyReplace (s pat sub : String) : String :=
  String.mk (replaceFuel pat.data sub.data s.data.length s.data)

/-- Number of positions of `cs` at which `pat` occurs, used to state that a
token appears exactly once in a format template. -/
def countOccur (pat cs : List Char) : Nat :=
  ((List.range (cs.length + 1)).filter (fun i => pat <+: cs.drop i)).length

namespace colorama

namespace Fore

def LIGHTBLACK_EX : String := "\x1b[90m"

def RESET : String := "\x1b[39m"

def YELLOW : String := "\x1b[33m"

def RED : String := "\x1b[31m"

end Fore

namespace Style

def BRIGHT : String := "\x1b[1m"

def RESET_ALL : String := "\x1b[0m"

end Style

end colorama

namespace logging

def DEBUG : Int := 10

def INFO : Int := 20

def WARNING : Int := 30

def ERROR : Int := 40

def CRITICAL : Int := 50

end logging

/-- The five recognised severity levels, in the order of the `formats`
dictionary. -/
def fiveLevels : List Int :=
  [logging.DEBUG, logging.INFO, logging.WARNING, logging.ERROR, logging.CRITICAL]

/-- The flags stored by `CustomFormatter.__init__` (`bool(...)` of the
arguments). -/
structure CustomFormatter where
  colour : Bool
  threaded : Bool
  verbose : Bool
deriving DecidableEq

/-- The `self.colours` dictionary keyed by level; its `'reset'` entry is
`colorama.Style.RESET_ALL`, used directly below. -/
def CustomFormatter.colours (level : Int) : Option String :=
  if level = logging.DEBUG then some colorama.Fore.LIGHTBLACK_EX
  else if level = logging.INFO then some colorama.Fore.RESET
  else if level = logging.WARNING then some colorama.Fore.YELLOW
  else if level = logging.ERROR then some colorama.Fore.RED
  else if level = logging.CRITICAL then
    some (colorama.Style.BRIGHT ++ colorama.Fore.RED)
  else none

/-- The black-and-white template, identical for all five levels. -/
def baseFormat : String := "%(asctime)s ┆ %(levelname)-8s ┆ %(message)s"

/-- `self.formats.get(level)`: the dictionary has exactly the five standard
levels as keys, each mapped to `baseFormat`. -/
def CustomFormatter.formats (level : Int) : Option String :=
  if level = logging.DEBUG ∨ level = logging.INFO ∨ level = logging.WARNING ∨
      level = logging.ERROR ∨ level = logging.CRITICAL then
    some baseFormat
  else none

/-- `CustomFormatter.get_format`: looks the level up in `formats` (raising
`ValueError` when absent), splices in the thread-name token after the
severity field when `threaded`, the name/line tokens before the message
when `verbose`, and wraps the template in the level's colour code and the
reset code when `colour`. -/
def CustomFormatter.get_format (f : CustomFormatter) (level : Int) :
    Except String String :=
  match CustomFormatter.formats level with
  | none => Except.error ("Invalid log level: " ++ toString level)
  | some fmt0 =>
    let fmt1 := if f.threaded then
        pyReplace fmt0 "%(levelname)-8s" "%(levelname)-8s | %(threadName)s"
      else fmt0
    let fmt2 := if f.verbose then
        pyReplace fmt1 "%(message)s" "[%(name)s:%(lineno)d] %(message)s"
      else fmt1
    if f.colour then
      match CustomFormatter.colours level with
      | some c => Except.ok (c ++ fmt2 ++ colorama.Style.RESET_ALL)
      | none => Except.error ("KeyError: " ++ toString level)
    else
      Except.ok fmt2

/-- The attributes of a `logging.LogRecord` that the templates refer to. -/
structure LogRecord where
  levelno : Int
  levelname : String
  name : String
  lineno : Int
  threadName : String
  asctime : String
  message : String
deriving DecidableEq

/-- The `logging.Formatter(log_fmt).format(record)` step: substitution of
the record's attributes for the `%(...)` tokens.  The standard library
formatter is outside this repository; what matters to the claims is that it
is a total function of the template and the record, which this
substitution is. -/
def renderTemplate (fmt : String) (r : LogRecord) : String :=
  pyReplace (pyReplace (pyReplace (pyReplace (pyReplace (pyReplace fmt
    "%(asctime)s" r.asctime)
    "%(levelname)-8s" r.levelname)
    "%(threadName)s" r.threadName)
    "%(name)s" r.name)
    "%(lineno)d" (toString r.lineno))
    "%(message)s" r.message

/-- `CustomFormatter.format`: obtains the template for the record's level
(propagating the `ValueError` of `get_format`) and renders the record. -/
def CustomFormatter.format (f : CustomFormatter) (record : LogRecord) :
    Except String String :=
  Except.map (fun fmt => renderTemplate fmt record)
    (CustomFormatter.get_format f record.levelno)

/-- The property claimed of the flag-dependent template insertions, for one
level: with `threaded` the thread token appears exactly once, spliced (with
the `' | '` separator) directly after the severity field; with `verbose`
the name/line tokens sit directly before the message field; with both
flags both insertions coexist (colour off, so the bare template is
visible). -/
def FormatInsertionsSpec (lvl : Int) : Prop :=
  CustomFormatter.get_format ⟨false, true, false⟩ lvl =
    Except.ok ("%(asctime)s ┆ " ++ "%(levelname)-8s" ++ " | " ++
      "%(threadName)s" ++ " ┆ " ++ "%(message)s") ∧
  countOccur "%(threadName)s".data
    ("%(asctime)s ┆ %(levelname)-8s | %(threadName)s ┆ %(message)s").data = 1 ∧
  CustomFormatter.get_format ⟨false, false, true⟩ lvl =
    Except.ok ("%(asctime)s ┆ " ++ "%(levelname)-8s" ++ " ┆ " ++
      "[%(name)s:%(lineno)d]" ++ " " ++ "%(message)s") ∧
  CustomFormatter.get_format ⟨false, true, true⟩ lvl =
    Except.ok ("%(asctime)s ┆ " ++ "%(levelname)-8s" ++ " | " ++
      "%(threadName)s" ++ " ┆ " ++ "[%(name)s:%(lineno)d]" ++ " " ++
      "%(message)s") ∧
  countOccur "%(threadName)s".data
    ("%(asctime)s ┆ %(levelname)-8s | %(threadName)s ┆ [%(name)s:%(lineno)d] %(message)s").data
    = 1 ∧
  countOccur "[%(name)s:%(lineno)d]".data
    ("%(asctime)s ┆ %(levelname)-8s | %(threadName)s ┆ [%(name)s:%(lineno)d] %(message)s").data
    = 1

/-- C4: for each of the five recognised levels, `get_format` with
`threaded=True` contains the thread-name token exactly once, right after
the severity field; with `verbose=True` the name and line tokens sit right
before the message; and with both flags both insertions are present
simultaneously. -/
theorem format_insertions (lvl : Int) (h : lvl ∈ fiveLevels) :
    FormatInsertionsSpec lvl := by
  fin_cases h <;>
    exact ⟨rfl, by decide, rfl, rfl, by decide, by decide⟩

/-- Witness for C4 at the INFO level. -/
theorem format_insertions_witness : FormatInsertionsSpec logging.INFO :=
  format_insertions logging.INFO (by decide)

/-- The property claimed of colouring, for one level: for every
threaded/verbose flag combination the coloured template is exactly the
uncoloured template wrapped in the level's colour code and the trailing
reset code, and the level-to-colour dictionary maps DEBUG to dim/faint
(`colorama.Fore.LIGHTBLACK_EX`, SGR 90), INFO to the default foreground,
WARNING to yellow, ERROR to red and CRITICAL to bright red. -/
def ColourWrapSpec (lvl : Int) : Prop :=
  (∀ th v : Bool,
    CustomFormatter.get_format ⟨true, th, v⟩ lvl =
      Except.map
        (fun s => (CustomFormatter.colours lvl).getD "" ++ s ++
          colorama.Style.RESET_ALL)
        (CustomFormatter.get_format ⟨false, th, v⟩ lvl)) ∧
  CustomFormatter.colours logging.DEBUG = some colorama.Fore.LIGHTBLACK_EX ∧
  CustomFormatter.colours logging.INFO = some colorama.Fore.RESET ∧
  CustomFormatter.colours logging.WARNING = some colorama.Fore.YELLOW ∧
  CustomFormatter.colours logging.ERROR = some colorama.Fore.RED ∧
  CustomFormatter.colours logging.CRITICAL =
    some (colorama.Style.BRIGHT ++ colorama.Fore.RED) ∧
  colorama.Fore.LIGHTBLACK_EX = "\x1b[90m" ∧
  colorama.Fore.RESET = "\x1b[39m" ∧
  colorama.Fore.YELLOW = "\x1b[33m" ∧
  colorama.Fore.RED = "\x1b[31m" ∧
  colorama.Style.BRIGHT = "\x1b[1m" ∧
  colorama.Style.RESET_ALL = "\x1b[0m"

/-- C5: with colouring enabled the produced template is the uncoloured one
wrapped in a leading severity-specific colour code and a trailing reset
code, with the severity-to-colour mapping of the source. -/
theorem colour_wraps_format (lvl : Int) (h : lvl ∈ fiveLevels) :
    ColourWrapSpec lvl := by
  fin_cases h <;>
    exact ⟨fun th v => by cases th <;> cases v <;> rfl,
      rfl, rfl, rfl, rfl, rfl, rfl, rfl, rfl, rfl, rfl, rfl⟩

/-- Witness for C5 at the WARNING level. -/
theorem colour_wraps_format_witness : ColourWrapSpec logging.WARNING :=
  colour_wraps_format logging.WARNING (by decide)

theorem isOk_map {ε α β : Type} (g : α → β) (e : Except ε α) :
    (Except.map g e).isOk = e.isOk := by
  cases e <;> rfl

theorem mem_fiveLevels_iff (lvl : Int) :
    lvl ∈ fiveLevels ↔
      (lvl = logging.DEBUG ∨ lvl = logging.INFO ∨ lvl = logging.WARNING ∨
        lvl = logging.ERROR ∨ lvl = logging.CRITICAL) := by
  simp [fiveLevels]

theorem get_format_isOk_iff (f : CustomFormatter) (lvl : Int) :
    (CustomFormatter.get_format f lvl).isOk = true ↔ lvl ∈ fiveLevels := by
  by_cases h : lvl ∈ fiveLevels
  · obtain ⟨c, hc⟩ : ∃ c, CustomFormatter.colours lvl = some c := by
      fin_cases h <;> exact ⟨_, rfl⟩
    have hf : CustomFormatter.formats lvl = some baseFormat := by
      unfold CustomFormatter.formats
      rw [if_pos ((mem_fiveLevels_iff lvl).mp h)]
    simp only [CustomFormatter.get_format, hf, hc]
    cases hcol : f.colour <;> simp [isOk_ok, h]
  · have hf : CustomFormatter.formats lvl = none := by
      unfold CustomFormatter.formats
      rw [if_neg]
      exact fun hcontra => h ((mem_fiveLevels_iff lvl).mpr hcontra)
    simp only [CustomFormatter.get_format, hf]
    simp [isOk_error, h]

/-- C8: both `get_format` and `format` fail exactly on the records (or
levels) whose severity is not one of the five recognised levels, and
succeed on all five. -/
theorem format_fails_iff_unknown_level (f : CustomFormatter) (r : LogRecord) :
    ((CustomFormatter.get_format f r.levelno).isOk = true ↔
      r.levelno ∈ fiveLevels) ∧
    ((CustomFormatter.format f r).isOk = true ↔ r.levelno ∈ fiveLevels) := by
  refine ⟨get_format_isOk_iff f r.levelno, ?_⟩
  rw [CustomFormatter.format, isOk_map]
  exact get_format_isOk_iff f r.levelno

/-- Python `s.split('\n')`: the pieces of `cs` between newline characters
(the empty string splits to one empty piece). -/
def splitLines : List Char → List (List Char)
  | [] => [[]]
  | c :: rest =>
    let r := splitLines rest
    if c = '\n' then [] :: r
    else
      match r with
      | [] => [[c]]
      | h :: t => (c :: h) :: t

/-- `print_table`: tabulate's already-formatted output (tabulate is a
third-party library, so its result is the input here) is split on newlines
and each line is passed to the sink as one call; the returned list is the
sink-call trace, in order. -/
def print_table (tabulated : String) : List String :=
  (splitLines tabulated.data).map String.mk

/-- Joining a list of lines with a separator, the inverse of the split. -/
def joinLines (sep : List Char) : List (List Char) → List Char
  | [] => []
  | [l] => l
  | l :: l2 :: ls => l ++ sep ++ joinLines sep (l2 :: ls)

theorem splitLines_ne_nil (cs : List Char) : splitLines cs ≠ [] := by
  cases cs with
  | nil => simp [splitLines]
  | cons c rest =>
    simp only [splitLines]
    split
    · simp
    · split
      · simp
      · simp

theorem splitLines_length (cs : List Char) :
    (splitLines cs).length = cs.count '\n' + 1 := by
  induction cs with
  | nil => rfl
  | cons c rest ih =>
    simp only [splitLines]
    by_cases hc : c = '\n'
    · subst hc
      simp [List.count_cons, ih]
    · rw [if_neg hc]
      cases hr : splitLines rest with
      | nil => exact absurd hr (splitLines_ne_nil rest)
      | cons h t =>
        simp only [List.length_cons]
        rw [hr] at ih
        simp only [List.length_cons] at ih
        simp [List.count_cons, hc, ih]

theorem joinLines_splitLines (cs : List Char) :
    joinLines ['\n'] (splitLines cs) = cs := by
  induction cs with
  | nil => rfl
  | cons c rest ih =>
    simp only [splitLines]
    by_cases hc : c = '\n'
    · subst hc
      rw [if_pos rfl]
      cases hr : splitLines rest with
      | nil => exact absurd hr (splitLines_ne_nil rest)
      | cons h t =>
        rw [hr] at ih
        simp [joinLines, ih]
    · rw [if_neg hc]
      cases hr : splitLines rest with
      | nil => exact absurd hr (splitLines_ne_nil rest)
      | cons h t =>
        rw [hr] at ih
        cases t with
        | nil => simp_all [joinLines]
        | cons h2 t2 => simp_all [joinLines]

/-- C9: `print_table` makes one sink call per line of the underlying
table-formatting routine's output — `count of newlines + 1` calls — and the
lines, joined back with newlines, reproduce that output exactly (hence
same lines, same order). -/
theorem print_table_lines (s : String) :
    (print_table s).length = s.data.count '\n' + 1 ∧
    joinLines ['\n'] ((print_table s).map String.data) = s.data := by
  constructor
  · rw [print_table, List.length_map]
    exact splitLines_length s.data
  · rw [print_table, List.map_map]
    have : (String.data ∘ String.mk) = id := rfl
    rw [this, List.map_id]
    exact joinLines_splitLines s.data

/-- One handler entry of the configuration dictionary: either the console
stream handler or a rotating file handler (`class`, `filename`, `mode`,
`maxBytes`, `backupCount` fields of the Python dict). -/
inductive HandlerCfg where
  | streamHandler (level : String) (formatter : String) (stream : String)
  | rotatingFileHandler (level : String) (formatter : String)
      (filename : String) (mode : String) (maxBytes : Nat) (backupCount : Nat)
deriving DecidableEq

def HandlerCfg.isRotatingFile : HandlerCfg → Bool
  | .rotatingFileHandler _ _ _ _ _ _ => true
  | .streamHandler _ _ _ => false

/-- The dictionary returned by `get_logging_config`: version, the
`disable_existing_loggers` flag, the named formatters (each a
`CustomFormatter` construction), the named handlers, and the root logger's
level and handler list. -/
structure LoggingConfig where
  version : Nat
  disable_existing_loggers : Bool
  formatters : List (String × CustomFormatter)
  handlers : List (String × HandlerCfg)
  root_level : Int
  root_handlers : List String
deriving DecidableEq

/-- One step of `get_logging_config`'s observable behaviour, in order:
the `mkdir(parents=True, exist_ok=True)` on the log file's parent
directory, the `KeyError` of the level-string dictionary lookup, or the
returned configuration. -/
inductive ConfigStep where
  | mkdirParentsOf (log_file : String)
  | keyError (key : Int)
  | ret (cfg : LoggingConfig)
deriving DecidableEq

/-- The level-to-string dictionary lookup inside `get_logging_config`
(`{CRITICAL: "CRITICAL", ...}[stream_log_level]`); `none` is the
`KeyError`. -/
def stream_log_level_str (lvl : Int) : Option String :=
  if lvl = logging.CRITICAL then some "CRITICAL"
  else if lvl = logging.ERROR then some "ERROR"
  else if lvl = logging.WARNING then some "WARNING"
  else if lvl = logging.INFO then some "INFO"
  else if lvl = logging.DEBUG then some "DEBUG"
  else none

/-- `get_logging_config` as its trace of observable steps: it first creates
the log directory, then resolves the console level string (raising
`KeyError` on an unrecognised level), and finally returns the
configuration dictionary of the source, with the `colourful` flag choosing
the console formatter. -/
def get_logging_config (log_file : String) (stream_log_level : Int)
    (colourful : Bool) : List ConfigStep :=
  match stream_log_level_str stream_log_level with
  | none => [ConfigStep.mkdirParentsOf log_file,
             ConfigStep.keyError stream_log_level]
  | some lvlStr =>
    [ConfigStep.mkdirParentsOf log_file,
     ConfigStep.ret
       ⟨1, false,
        [("standard", ⟨false, false, false⟩),
         ("colourful", ⟨true, false, false⟩),
         ("log-file", ⟨false, true, true⟩)],
        [("default",
          HandlerCfg.streamHandler lvlStr
            (if colourful then "colourful" else "standard")
            "ext://sys.stdout"),
         ("debug_rotating_file_handler",
          HandlerCfg.rotatingFileHandler "DEBUG" "log-file" log_file "a"
            1048576 3),
         ("info_rotating_file_handler",
          HandlerCfg.rotatingFileHandler "INFO" "log-file" log_file "a"
            1048576 3),
         ("error_rotating_file_handler",
          HandlerCfg.rotatingFileHandler "WARNING" "log-file" log_file "a"
            1048576 3)],
        logging.DEBUG,
        ["default", "error_rotating_file_handler",
         "info_rotating_file_handler", "debug_rotating_file_handler"]⟩]

/-- The property claimed of the configuration for a recognised console
level: the builder returns (after the directory side effect) a
configuration whose rotating file handlers are exactly three, all bound to
the same file with the same size cap and backup count, at thresholds
DEBUG, INFO and WARNING — a constant list, independent of the requested
console severity — while the console handler's level is the requested
severity's name. -/
def ConfigSpec (log_file : String) (lvl : Int) (colourful : Bool) : Prop :=
  ∃ cfg lvlStr,
    get_logging_config log_file lvl colourful =
      [ConfigStep.mkdirParentsOf log_file, ConfigStep.ret cfg] ∧
    stream_log_level_str lvl = some lvlStr ∧
    (cfg.handlers.filter (fun p => HandlerCfg.isRotatingFile p.2)).map
        Prod.snd =
      [HandlerCfg.rotatingFileHandler "DEBUG" "log-file" log_file "a"
        1048576 3,
       HandlerCfg.rotatingFileHandler "INFO" "log-file" log_file "a"
        1048576 3,
       HandlerCfg.rotatingFileHandler "WARNING" "log-file" log_file "a"
        1048576 3] ∧
    ("default",
      HandlerCfg.streamHandler lvlStr
        (if colourful then "colourful" else "standard")
        "ext://sys.stdout") ∈ cfg.handlers

/-- C3: for every log file path, recognised console severity and colouring
flag, the returned configuration has exactly three rotating file handlers,
same file, same `maxBytes`/`backupCount`, at DEBUG/INFO/WARNING, while the
console handler carries the caller-chosen severity. -/
theorem config_three_file_handlers (log_file : String) (lvl : Int)
    (colourful : Bool) (h : lvl ∈ fiveLevels) :
    ConfigSpec log_file lvl colourful := by
  fin_cases h <;>
    exact ⟨_, _, rfl, rfl, rfl, by simp⟩

/-- Witness for C3 at level INFO with colouring on. -/
theorem config_three_file_handlers_witness :
    ConfigSpec "app.log" logging.INFO true :=
  config_three_file_handlers "app.log" logging.INFO true (by decide)

/-- C10: for every console level that is not one of the five standard
numeric levels, `get_logging_config` raises the dictionary lookup
`KeyError` and returns no configuration — and the trace shows the parent
directory of the log file was already created before the failure. -/
theorem config_keyerror_after_mkdir (log_file : String) (lvl : Int)
    (colourful : Bool) (h : lvl ∉ fiveLevels) :
    get_logging_config log_file lvl colourful =
      [ConfigStep.mkdirParentsOf log_file, ConfigStep.keyError lvl] := by
  rw [mem_fiveLevels_iff] at h
  push_neg at h
  obtain ⟨h1, h2, h3, h4, h5⟩ := h
  unfold get_logging_config stream_log_level_str
  rw [if_neg h5, if_neg h4, if_neg h3, if_neg h2, if_neg h1]

/-- Witness for C10 at the unrecognised level 15. -/
theorem config_keyerror_after_mkdir_witness :
    get_logging_config "app.log" 15 true =
      [ConfigStep.mkdirParentsOf "app.log", ConfigStep.keyError 15] :=
  config_keyerror_after_mkdir "app.log" 15 true (by decide)

end Prettylog
